import Mathlib

/-!
Verification of the Dew Point integration (custom_components/dew_point).

The development shallowly embeds the code of sensor.py:

* the Arden Buck dew-point formula _calculate_dew_point_arden_buck
  (local variables es, e, alpha, denominator become named functions);
* the two normalizers _parse_temp_state and _parse_hum_state;
* the update controller: _recalculate_and_write_state, the state-change
  listener installed by async_added_to_hass, async_update and
  _initial_refresh, and the arm/teardown lifecycle
  (sensor_startup / async_will_remove_from_hass).

Python floats are modelled as real numbers; Python round(x, n) is modelled
with Mathlib's round (the two differ only on exact ties, which no claim
here touches).  Fallible operations return Option, mirroring the
Optional[float] return types of the source.
-/

namespace DewPoint

/-- What the code can observe about the textual state of an upstream
entity after the availability check and the float parse of
homeassistant.util.convert: the literal STATE_UNKNOWN, the literal
STATE_UNAVAILABLE, a string parsing to the float v, or a string that
fails the float parse. -/
inductive StateValue where
  | unknown : StateValue
  | unavailable : StateValue
  | num : ℝ → StateValue
  | junk : StateValue

/-- A Home Assistant state object as used by the code: its state text and
the unit_of_measurement attribute (absent attribute modelled as none). -/
structure HAState where
  state : StateValue
  unit : Option String

/-- UnitOfTemperature.CELSIUS. -/
def celsiusUnit : String := "°C"

/-- UnitOfTemperature.FAHRENHEIT. -/
def fahrenheitUnit : String := "°F"

/-- PERCENTAGE. -/
def percentageUnit : String := "%"

/-- Modelled from the spec: the host's TemperatureConverter.convert to
Celsius, which is outside this repository.  The spec gives the standard
affine formula (F - 32) * 5/9 for Fahrenheit and the identity for
Celsius; for any other source unit the host raises, which the caller
turns into a failure, so it is modelled as none. -/
noncomputable def temperatureConvertToCelsius (v : ℝ) (unit : String) : Option ℝ :=
  if unit = celsiusUnit then some v
  else if unit = fahrenheitUnit then some ((v - 32) * 5 / 9)
  else none

/-- Embedding of DewPointSensor._parse_temp_state: availability check,
float parse, then the unit test against (FAHRENHEIT, CELSIUS) followed by
the conversion to Celsius. -/
noncomputable def parse_temp_state (st : Option HAState) : Option ℝ :=
  match st with
  | none => none
  | some s =>
    match s.state with
    | StateValue.num v =>
      match s.unit with
      | some u =>
        if u = fahrenheitUnit ∨ u = celsiusUnit then
          temperatureConvertToCelsius v u
        else none
      | none => none
    | _ => none

open Classical in
/-- Embedding of DewPointSensor._parse_hum_state: availability check,
float parse, unit must equal PERCENTAGE, value must lie in [0, 100],
and the result is value / 100. -/
noncomputable def parse_hum_state (st : Option HAState) : Option ℝ :=
  match st with
  | none => none
  | some s =>
    match s.state with
    | StateValue.num v =>
      if s.unit = some percentageUnit then
        if 0 ≤ v ∧ v ≤ 100 then some (v / 100) else none
      else none
    | _ => none

/-- Local es of _calculate_dew_point_arden_buck: saturated vapor
pressure by the Arden Buck approximation. -/
noncomputable def es (temp_c : ℝ) : ℝ :=
  0.61121 * Real.exp ((18.678 - temp_c / 234.5) * (temp_c / (257.14 + temp_c)))

/-- Local e of _calculate_dew_point_arden_buck: actual vapor pressure. -/
noncomputable def e (temp_c rel_hum : ℝ) : ℝ := rel_hum * es temp_c

/-- Local alpha of _calculate_dew_point_arden_buck. -/
noncomputable def alpha (temp_c rel_hum : ℝ) : ℝ :=
  Real.log (e temp_c rel_hum / 0.61121)

/-- Local denominator of _calculate_dew_point_arden_buck. -/
noncomputable def denominator (temp_c rel_hum : ℝ) : ℝ :=
  18.678 - alpha temp_c rel_hum

open Classical in
/-- Embedding of _calculate_dew_point_arden_buck.  Returns none exactly
on the two guarded branches of the code: non-positive vapor pressure, or
a denominator whose absolute value is below 1e-10. -/
noncomputable def dewPointCelsius (temp_c rel_hum : ℝ) : Option ℝ :=
  if e temp_c rel_hum ≤ 0 then none
  else if |denominator temp_c rel_hum| < 1e-10 then none
  else some ((257.14 * alpha temp_c rel_hum) / denominator temp_c rel_hum)

/-- Python round(x, ndigits) modelled over the reals: round x * 10^n to
the nearest integer and divide back.  Mathlib's round sends exact ties
upward while Python sends them to the nearest even digit; no input
considered in this development is a tie. -/
noncomputable def roundTo (ndigits : ℤ) (x : ℝ) : ℝ :=
  (round (x * (10 : ℝ) ^ ndigits) : ℝ) / (10 : ℝ) ^ ndigits

/-- The construction parameters of DewPointSensor that the update logic
reads: the two tracked entity ids and the rounding precision. -/
structure Config where
  entity_dry_temp : String
  entity_rel_hum : String
  decimal_places : ℤ

/-- The mutable fields of DewPointSensor driven by the triggers:
_dry_temp_value, _rel_hum_value and _attr_native_value. -/
structure SensorState where
  dry_temp_value : Option ℝ
  rel_hum_value : Option ℝ
  native_value : Option ℝ

/-- Embedding of _recalculate_and_write_state: when both cached inputs
are present, the published native value becomes the rounded dew point
(none when the calculator is undefined); otherwise it becomes none.  The
cached inputs themselves are untouched. -/
noncomputable def recalculate (cfg : Config) (s : SensorState) : SensorState :=
  { s with native_value :=
      match s.dry_temp_value, s.rel_hum_value with
      | some t, some h =>
        (dewPointCelsius t h).map (fun d => roundTo cfg.decimal_places d)
      | _, _ => none }

/-- The spec's DerivedOutput as a pure function of the cached pair and
the precision: round(dew_point_celsius(t, h), precision) when both are
present and the calculator is defined, and unknown (none) otherwise. -/
noncomputable def derivedOutput (precision : ℤ) (t h : Option ℝ) : Option ℝ :=
  match t, h with
  | some tv, some hv => (dewPointCelsius tv hv).map (fun d => roundTo precision d)
  | _, _ => none

/-- Embedding of sensor_state_listener (the callback registered by
async_added_to_hass): re-normalize exactly the channel named by the
event, overwrite its cached value, and recompute; events for any other
entity return early. -/
noncomputable def sensor_state_listener (cfg : Config) (entity_id : String)
    (new_state : Option HAState) (s : SensorState) : SensorState :=
  if entity_id = cfg.entity_dry_temp then
    recalculate cfg { s with dry_temp_value := parse_temp_state new_state }
  else if entity_id = cfg.entity_rel_hum then
    recalculate cfg { s with rel_hum_value := parse_hum_state new_state }
  else s

/-- Embedding of async_update (the polling fallback): re-normalize both
channels from the current registry states, then recompute.  The registry
lookup hass.states.get is modelled as a function from entity ids to
optional states. -/
noncomputable def async_update (cfg : Config) (states : String → Option HAState)
    (s : SensorState) : SensorState :=
  recalculate cfg
    { s with
      dry_temp_value := parse_temp_state (states cfg.entity_dry_temp)
      rel_hum_value := parse_hum_state (states cfg.entity_rel_hum) }

/-- Embedding of _initial_refresh, whose body coincides with
async_update: populate both cached values from the registry and
recompute. -/
noncomputable def initial_refresh (cfg : Config) (states : String → Option HAState)
    (s : SensorState) : SensorState :=
  recalculate cfg
    { s with
      dry_temp_value := parse_temp_state (states cfg.entity_dry_temp)
      rel_hum_value := parse_hum_state (states cfg.entity_rel_hum) }

/-- The attribute mapping published by extra_state_attributes. -/
structure StateAttributes where
  temperature : Option ℝ
  humidity : Option ℝ
  decimal_places : ℤ

/-- Embedding of extra_state_attributes: the cached temperature as is,
the cached humidity rescaled to percent and rounded to one decimal, and
the configured precision. -/
noncomputable def extra_state_attributes (cfg : Config) (s : SensorState) :
    StateAttributes :=
  { temperature := s.dry_temp_value
    humidity := s.rel_hum_value.map (fun v => roundTo 1 (v * 100))
    decimal_places := cfg.decimal_places }

/-- The listener/timer handles of DewPointSensor: whether
_unsub_listener is attached and whether the _startup_handle timer is
still pending. -/
structure Lifecycle where
  listenerAttached : Bool
  timerPending : Bool

/-- A full instance: lifecycle handles plus the cached sensor fields. -/
structure Sys where
  life : Lifecycle
  sensor : SensorState

/-- The triggers that can reach a DewPointSensor from the host:
the one-shot startup-complete event, a tracked-entity state change, the
delayed initial-refresh timer, and removal of the entity. -/
inductive Trigger where
  | startupComplete : Trigger
  | stateChange : String → Option HAState → Trigger
  | timerFire : Trigger
  | remove : Trigger

/-- One host dispatch, following the host's contracts for listeners and
cancellable timers: a state change is delivered only while the listener
is attached (async_track_state_change_event), the timer callback fires
only while the handle is pending (async_call_later with cancel), and
async_will_remove_from_hass detaches the listener and cancels the timer.
The Bool records whether the trigger published (async_write_ha_state). -/
noncomputable def step (cfg : Config) (states : String → Option HAState)
    (sys : Sys) : Trigger → Sys × Bool
  | Trigger.startupComplete =>
    ({ sys with life := { listenerAttached := true, timerPending := true } }, false)
  | Trigger.stateChange entity_id st =>
    if sys.life.listenerAttached then
      ({ sys with sensor := sensor_state_listener cfg entity_id st sys.sensor },
        entity_id = cfg.entity_dry_temp ∨ entity_id = cfg.entity_rel_hum)
    else (sys, false)
  | Trigger.timerFire =>
    if sys.life.timerPending then
      ({ life := { sys.life with timerPending := false }
         sensor := initial_refresh cfg states sys.sensor }, true)
    else (sys, false)
  | Trigger.remove =>
    ({ sys with life := { listenerAttached := false, timerPending := false } }, false)

/-- Run a sequence of triggers; the Bool records whether any step in the
sequence published. -/
noncomputable def run (cfg : Config) (states : String → Option HAState) :
    Sys → List Trigger → Sys × Bool
  | sys, [] => (sys, false)
  | sys, t :: ts =>
    let r := step cfg states sys t
    let rest := run cfg states r.1 ts
    (rest.1, r.2 || rest.2)

/-! Helper lemmas shared by the claim theorems. -/

theorem roundTo_one_eq_of_bounds (x : ℝ) (n : ℤ) (h1 : (n : ℝ) ≤ x * 10 + 1 / 2)
    (h2 : x * 10 + 1 / 2 < n + 1) : roundTo 1 x = (n : ℝ) / 10 := by
  unfold roundTo
  have h10 : ((10 : ℝ) ^ (1 : ℤ)) = 10 := by norm_num
  rw [h10, round_eq, Int.floor_eq_iff.mpr ⟨h1, h2⟩]

theorem parse_hum_state_percent (v : ℝ) (u : Option String) :
    parse_hum_state (some ⟨StateValue.num v, u⟩) =
      if u = some percentageUnit then
        if 0 ≤ v ∧ v ≤ 100 then some (v / 100) else none
      else none := rfl

theorem parse_temp_state_num (v : ℝ) (u : String) :
    parse_temp_state (some ⟨StateValue.num v, some u⟩) =
      if u = fahrenheitUnit ∨ u = celsiusUnit then
        temperatureConvertToCelsius v u
      else none := rfl

/-- C3: humidity normalization accepts exactly the percent tag, requires
the parsed value to lie in [0, 100], divides by 100 on success (so 100
gives 1.0 and 0 gives 0.0), rejects 100.01 and every other out-of-range
value rather than clamping, and every successful result lies in [0, 1]. -/
theorem humidity_normalization_correct :
    (∀ v : ℝ, 0 ≤ v → v ≤ 100 →
      parse_hum_state (some ⟨StateValue.num v, some percentageUnit⟩) = some (v / 100)) ∧
    parse_hum_state (some ⟨StateValue.num 100, some percentageUnit⟩) = some 1 ∧
    parse_hum_state (some ⟨StateValue.num 0, some percentageUnit⟩) = some 0 ∧
    parse_hum_state (some ⟨StateValue.num (10001 / 100), some percentageUnit⟩) = none ∧
    (∀ v : ℝ, ¬(0 ≤ v ∧ v ≤ 100) →
      parse_hum_state (some ⟨StateValue.num v, some percentageUnit⟩) = none) ∧
    (∀ (v : ℝ) (u : Option String), u ≠ some percentageUnit →
      parse_hum_state (some ⟨StateValue.num v, u⟩) = none) ∧
    (∀ (st : Option HAState) (r : ℝ), parse_hum_state st = some r → 0 ≤ r ∧ r ≤ 1) := by
  refine ⟨fun v h0 h100 => ?_, ?_, ?_, ?_, fun v hv => ?_, fun v u hu => ?_,
    fun st r hr => ?_⟩
  · rw [parse_hum_state_percent, if_pos rfl, if_pos ⟨h0, h100⟩]
  · rw [parse_hum_state_percent, if_pos rfl, if_pos (by norm_num)]
    norm_num
  · rw [parse_hum_state_percent, if_pos rfl, if_pos (by norm_num)]
    norm_num
  · rw [parse_hum_state_percent, if_pos rfl, if_neg (by norm_num)]
  · rw [parse_hum_state_percent, if_pos rfl, if_neg hv]
  · rw [parse_hum_state_percent, if_neg hu]
  · match st with
    | none => exact absurd hr (by simp [parse_hum_state])
    | some ⟨StateValue.unknown, u⟩ => exact absurd hr (by simp [parse_hum_state])
    | some ⟨StateValue.unavailable, u⟩ => exact absurd hr (by simp [parse_hum_state])
    | some ⟨StateValue.junk, u⟩ => exact absurd hr (by simp [parse_hum_state])
    | some ⟨StateValue.num v, u⟩ =>
      rw [parse_hum_state_percent] at hr
      split_ifs at hr with h1 h2
      · obtain ⟨hv0, hv100⟩ := h2
        obtain rfl : v / 100 = r := by injection hr
        constructor
        · positivity
        · rw [div_le_one (by norm_num)]
          linarith

/-- C3 witness: the general percent branch instantiated at v = 60. -/
theorem humidity_normalization_correct_witness :
    parse_hum_state (some ⟨StateValue.num 60, some percentageUnit⟩) = some (60 / 100) :=
  humidity_normalization_correct.1 60 (by norm_num) (by norm_num)

/-- C4: temperature normalization returns Celsius readings unchanged,
converts Fahrenheit readings with (F - 32) * 5/9 (exactly over the
reals, hence within the claimed 1e-9 tolerance: 32 °F gives 0 °C and
212 °F gives 100 °C), and yields Unavailable for every other unit tag. -/
theorem temperature_normalization_correct :
    (∀ v : ℝ, parse_temp_state (some ⟨StateValue.num v, some celsiusUnit⟩) = some v) ∧
    (∀ v : ℝ, parse_temp_state (some ⟨StateValue.num v, some fahrenheitUnit⟩) =
      some ((v - 32) * 5 / 9)) ∧
    parse_temp_state (some ⟨StateValue.num 32, some fahrenheitUnit⟩) = some 0 ∧
    parse_temp_state (some ⟨StateValue.num 212, some fahrenheitUnit⟩) = some 100 ∧
    (∀ (v : ℝ) (u : Option String), u ≠ some celsiusUnit → u ≠ some fahrenheitUnit →
      parse_temp_state (some ⟨StateValue.num v, u⟩) = none) := by
  have hC : ∀ v : ℝ,
      parse_temp_state (some ⟨StateValue.num v, some celsiusUnit⟩) = some v := by
    intro v
    rw [parse_temp_state_num, if_pos (Or.inr rfl)]
    rw [temperatureConvertToCelsius, if_pos rfl]
  have hF : ∀ v : ℝ,
      parse_temp_state (some ⟨StateValue.num v, some fahrenheitUnit⟩) =
        some ((v - 32) * 5 / 9) := by
    intro v
    rw [parse_temp_state_num, if_pos (Or.inl rfl)]
    rw [temperatureConvertToCelsius, if_neg (by decide), if_pos rfl]
  refine ⟨hC, hF, ?_, ?_, fun v u hc hf => ?_⟩
  · rw [hF]; norm_num
  · rw [hF]; norm_num
  · match u with
    | none => rfl
    | some u' =>
      have hc' : u' ≠ celsiusUnit := fun h => hc (by rw [h])
      have hf' : u' ≠ fahrenheitUnit := fun h => hf (by rw [h])
      rw [parse_temp_state_num, if_neg]
      rintro (h | h)
      · exact hf' h
      · exact hc' h

/-- C4 witness: the unsupported-unit branch instantiated at the Kelvin
tag, together with one Fahrenheit conversion. -/
theorem temperature_normalization_correct_witness :
    parse_temp_state (some ⟨StateValue.num 300, some "K"⟩) = none ∧
    parse_temp_state (some ⟨StateValue.num 32, some fahrenheitUnit⟩) = some 0 :=
  ⟨temperature_normalization_correct.2.2.2.2 300 (some "K") (by simp [celsiusUnit])
      (by simp [fahrenheitUnit]),
    temperature_normalization_correct.2.2.1⟩

/-- C5: both normalizers are total functions into Option (no exception
reaches the caller); a missing, unknown, or unavailable upstream state
yields Unavailable before any numeric parse, unparseable text yields
Unavailable, and an unsupported unit tag such as Kelvin yields
Unavailable. -/
theorem normalization_never_raises :
    parse_temp_state none = none ∧
    (∀ u, parse_temp_state (some ⟨StateValue.unknown, u⟩) = none) ∧
    (∀ u, parse_temp_state (some ⟨StateValue.unavailable, u⟩) = none) ∧
    (∀ u, parse_temp_state (some ⟨StateValue.junk, u⟩) = none) ∧
    parse_hum_state none = none ∧
    (∀ u, parse_hum_state (some ⟨StateValue.unknown, u⟩) = none) ∧
    (∀ u, parse_hum_state (some ⟨StateValue.unavailable, u⟩) = none) ∧
    (∀ u, parse_hum_state (some ⟨StateValue.junk, u⟩) = none) ∧
    (∀ v : ℝ, parse_temp_state (some ⟨StateValue.num v, some "K"⟩) = none) := by
  refine ⟨rfl, fun u => rfl, fun u => rfl, fun u => rfl, rfl, fun u => rfl,
    fun u => rfl, fun u => rfl, fun v => ?_⟩
  rw [parse_temp_state_num, if_neg (by decide)]

/-- C10: a Celsius reading of any magnitude is returned unchanged by
temperature normalization (no range restriction), in contrast with
humidity normalization, which rejects every value above 100. -/
theorem temperature_no_range_restriction :
    (∀ v : ℝ, parse_temp_state (some ⟨StateValue.num v, some celsiusUnit⟩) = some v) ∧
    (∀ v : ℝ, 100 < v →
      parse_hum_state (some ⟨StateValue.num v, some percentageUnit⟩) = none) := by
  constructor
  · intro v
    rw [parse_temp_state_num, if_pos (Or.inr rfl)]
    rw [temperatureConvertToCelsius, if_pos rfl]
  · intro v hv
    rw [parse_hum_state_percent, if_pos rfl, if_neg]
    rintro ⟨h0, h100⟩
    linarith

/-- C10 witness: a one-million-degree Celsius reading is cached
unchanged while the same number is rejected as a humidity percent. -/
theorem temperature_no_range_restriction_witness :
    parse_temp_state (some ⟨StateValue.num 1000000, some celsiusUnit⟩) = some 1000000 ∧
    parse_hum_state (some ⟨StateValue.num 1000000, some percentageUnit⟩) = none :=
  ⟨temperature_no_range_restriction.1 1000000,
    temperature_no_range_restriction.2 1000000 (by norm_num)⟩

theorem derivedOutput_none_left (p : ℤ) (h : Option ℝ) :
    derivedOutput p none h = none := by
  cases h <;> rfl

theorem recalculate_dry (cfg : Config) (s : SensorState) :
    (recalculate cfg s).dry_temp_value = s.dry_temp_value := rfl

theorem recalculate_hum (cfg : Config) (s : SensorState) :
    (recalculate cfg s).rel_hum_value = s.rel_hum_value := rfl

theorem recalculate_native (cfg : Config) (s : SensorState) :
    (recalculate cfg s).native_value =
      derivedOutput cfg.decimal_places s.dry_temp_value s.rel_hum_value := rfl

theorem listener_eq_recalculate (cfg : Config) (entity_id : String)
    (st : Option HAState) (s : SensorState)
    (h : entity_id = cfg.entity_dry_temp ∨ entity_id = cfg.entity_rel_hum) :
    sensor_state_listener cfg entity_id st s =
      if entity_id = cfg.entity_dry_temp then
        recalculate cfg { s with dry_temp_value := parse_temp_state st }
      else recalculate cfg { s with rel_hum_value := parse_hum_state st } := by
  by_cases ht : entity_id = cfg.entity_dry_temp
  · rw [sensor_state_listener, if_pos ht, if_pos ht]
  · rw [sensor_state_listener, if_neg ht, if_neg ht, if_pos (h.resolve_left ht)]

theorem listener_native (cfg : Config) (entity_id : String) (st : Option HAState)
    (s : SensorState)
    (h : entity_id = cfg.entity_dry_temp ∨ entity_id = cfg.entity_rel_hum) :
    (sensor_state_listener cfg entity_id st s).native_value =
      derivedOutput cfg.decimal_places
        (sensor_state_listener cfg entity_id st s).dry_temp_value
        (sensor_state_listener cfg entity_id st s).rel_hum_value := by
  rw [listener_eq_recalculate cfg entity_id st s h]
  by_cases ht : entity_id = cfg.entity_dry_temp
  · rw [if_pos ht, recalculate_native, recalculate_dry, recalculate_hum]
  · rw [if_neg ht, recalculate_native, recalculate_dry, recalculate_hum]

/-- C2: after every trigger the published native value equals the
DerivedOutput function of the just-updated cached pair and the
configured precision — for the change listener (on events for a tracked
entity), for the polling fallback, and for the delayed initial refresh —
and the recompute step never touches the cached inputs and is
idempotent. -/
theorem derived_output_pure (cfg : Config) :
    (∀ s : SensorState, (recalculate cfg s).native_value =
      derivedOutput cfg.decimal_places s.dry_temp_value s.rel_hum_value) ∧
    (∀ s : SensorState, (recalculate cfg s).dry_temp_value = s.dry_temp_value ∧
      (recalculate cfg s).rel_hum_value = s.rel_hum_value) ∧
    (∀ (entity_id : String) (st : Option HAState) (s : SensorState),
      entity_id = cfg.entity_dry_temp ∨ entity_id = cfg.entity_rel_hum →
      (sensor_state_listener cfg entity_id st s).native_value =
        derivedOutput cfg.decimal_places
          (sensor_state_listener cfg entity_id st s).dry_temp_value
          (sensor_state_listener cfg entity_id st s).rel_hum_value) ∧
    (∀ (states : String → Option HAState) (s : SensorState),
      (async_update cfg states s).native_value =
        derivedOutput cfg.decimal_places
          (async_update cfg states s).dry_temp_value
          (async_update cfg states s).rel_hum_value) ∧
    (∀ (states : String → Option HAState) (s : SensorState),
      (initial_refresh cfg states s).native_value =
        derivedOutput cfg.decimal_places
          (initial_refresh cfg states s).dry_temp_value
          (initial_refresh cfg states s).rel_hum_value) ∧
    (∀ s : SensorState, recalculate cfg (recalculate cfg s) = recalculate cfg s) := by
  refine ⟨fun s => recalculate_native cfg s,
    fun s => ⟨recalculate_dry cfg s, recalculate_hum cfg s⟩,
    fun entity_id st s h => listener_native cfg entity_id st s h,
    fun states s => ?_, fun states s => ?_, fun s => rfl⟩
  · rw [async_update, recalculate_native, recalculate_dry, recalculate_hum]
  · rw [initial_refresh, recalculate_native, recalculate_dry, recalculate_hum]

/-- C2 witness: the listener conjunct instantiated at a concrete
configuration, event and state. -/
theorem derived_output_pure_witness :
    (sensor_state_listener ⟨"t", "h", 1⟩ "t" none ⟨none, none, none⟩).native_value =
      derivedOutput (1 : ℤ)
        (sensor_state_listener ⟨"t", "h", 1⟩ "t" none ⟨none, none, none⟩).dry_temp_value
        (sensor_state_listener ⟨"t", "h", 1⟩ "t" none ⟨none, none, none⟩).rel_hum_value :=
  (derived_output_pure ⟨"t", "h", 1⟩).2.2.1 "t" none ⟨none, none, none⟩ (Or.inl rfl)

/-- C7: a change notification for the temperature channel overwrites
only the cached temperature and leaves the cached humidity untouched
(and symmetrically for the humidity channel); a state with a missing
temperature recomputes to an unknown (none) native value while the
humidity attribute is still served from the valid cached humidity — in
particular a cached humidity of 0.6 is published as 60. -/
theorem channel_frame_and_degradation (cfg : Config) (entity_id : String)
    (st : Option HAState) (s : SensorState) :
    (entity_id = cfg.entity_dry_temp →
      (sensor_state_listener cfg entity_id st s).rel_hum_value = s.rel_hum_value ∧
      (sensor_state_listener cfg entity_id st s).dry_temp_value = parse_temp_state st) ∧
    (entity_id ≠ cfg.entity_dry_temp → entity_id = cfg.entity_rel_hum →
      (sensor_state_listener cfg entity_id st s).dry_temp_value = s.dry_temp_value ∧
      (sensor_state_listener cfg entity_id st s).rel_hum_value = parse_hum_state st) ∧
    (s.dry_temp_value = none →
      (recalculate cfg s).native_value = none ∧
      (extra_state_attributes cfg (recalculate cfg s)).humidity =
        s.rel_hum_value.map (fun v => roundTo 1 (v * 100))) ∧
    (s.dry_temp_value = none → s.rel_hum_value = some (6 / 10) →
      (recalculate cfg s).native_value = none ∧
      (extra_state_attributes cfg (recalculate cfg s)).humidity = some 60) := by
  have hnone : ∀ s' : SensorState, s'.dry_temp_value = none →
      (recalculate cfg s').native_value = none := by
    intro s' h
    rw [recalculate_native, h, derivedOutput_none_left]
  refine ⟨fun ht => ?_, fun ht hh => ?_, fun h => ⟨hnone s h, rfl⟩, fun h hh => ?_⟩
  · rw [sensor_state_listener, if_pos ht]
    exact ⟨recalculate_hum cfg _, recalculate_dry cfg _⟩
  · rw [sensor_state_listener, if_neg ht, if_pos hh]
    exact ⟨recalculate_dry cfg _, recalculate_hum cfg _⟩
  · refine ⟨hnone s h, ?_⟩
    show (recalculate cfg s).rel_hum_value.map (fun v => roundTo 1 (v * 100)) = some 60
    rw [recalculate_hum, hh]
    have h60 : roundTo 1 ((6 / 10 : ℝ) * 100) = ((600 : ℤ) : ℝ) / 10 := by
      apply roundTo_one_eq_of_bounds <;> norm_num
    show some (roundTo 1 ((6 / 10 : ℝ) * 100)) = some 60
    rw [h60]
    norm_num

/-- C7 witness: the temperature-frame conjunct and the degradation
scenario instantiated at a concrete configuration and state. -/
theorem channel_frame_and_degradation_witness :
    (sensor_state_listener ⟨"t", "h", 1⟩ "t" none
        ⟨none, some (6 / 10), none⟩).rel_hum_value = some (6 / 10) ∧
    (extra_state_attributes ⟨"t", "h", 1⟩
        (recalculate ⟨"t", "h", 1⟩ ⟨none, some (6 / 10), none⟩)).humidity = some 60 := by
  have h := channel_frame_and_degradation ⟨"t", "h", 1⟩ "t" none ⟨none, some (6 / 10), none⟩
  exact ⟨(h.1 rfl).1, (h.2.2.2 rfl rfl).2⟩

/-- C9: whenever the polling path (which re-normalizes both channels)
and the push path (which re-normalizes only the changed tracked channel)
arrive at the same cached input pair, they publish the same derived
output. -/
theorem poll_push_convergence (cfg : Config) (states : String → Option HAState)
    (entity_id : String) (st : Option HAState) (s1 s2 : SensorState)
    (h : entity_id = cfg.entity_dry_temp ∨ entity_id = cfg.entity_rel_hum)
    (hdry : (async_update cfg states s1).dry_temp_value =
      (sensor_state_listener cfg entity_id st s2).dry_temp_value)
    (hhum : (async_update cfg states s1).rel_hum_value =
      (sensor_state_listener cfg entity_id st s2).rel_hum_value) :
    (async_update cfg states s1).native_value =
      (sensor_state_listener cfg entity_id st s2).native_value := by
  rw [async_update, recalculate_native] at *
  rw [recalculate_dry] at hdry
  rw [recalculate_hum] at hhum
  rw [listener_native cfg entity_id st s2 h, ← hdry, ← hhum]

/-- C9 witness: poll and push from empty registries and caches agree. -/
theorem poll_push_convergence_witness :
    (async_update ⟨"t", "h", 1⟩ (fun _ => none) ⟨none, none, none⟩).native_value =
      (sensor_state_listener ⟨"t", "h", 1⟩ "t" none ⟨none, none, none⟩).native_value :=
  poll_push_convergence ⟨"t", "h", 1⟩ (fun _ => none) "t" none ⟨none, none, none⟩
    ⟨none, none, none⟩ (Or.inl rfl)
    (by rw [async_update, recalculate_dry, sensor_state_listener, if_pos rfl,
      recalculate_dry])
    (by rw [async_update, recalculate_hum, sensor_state_listener, if_pos rfl,
      recalculate_hum]; rfl)

theorem step_dead_stateChange (cfg : Config) (states : String → Option HAState)
    (s : SensorState) (entity_id : String) (st : Option HAState) :
    step cfg states ⟨⟨false, false⟩, s⟩ (Trigger.stateChange entity_id st) =
      (⟨⟨false, false⟩, s⟩, false) := by
  rw [step]
  exact if_neg (by simp)

theorem step_dead_timerFire (cfg : Config) (states : String → Option HAState)
    (s : SensorState) :
    step cfg states ⟨⟨false, false⟩, s⟩ Trigger.timerFire =
      (⟨⟨false, false⟩, s⟩, false) := by
  rw [step]
  exact if_neg (by simp)

theorem run_dead (cfg : Config) (states : String → Option HAState)
    (ts : List Trigger) (hts : ∀ t ∈ ts, t ≠ Trigger.startupComplete)
    (s : SensorState) :
    run cfg states ⟨⟨false, false⟩, s⟩ ts = (⟨⟨false, false⟩, s⟩, false) := by
  induction ts with
  | nil => rfl
  | cons t ts ih =>
    have hstep : step cfg states ⟨⟨false, false⟩, s⟩ t = (⟨⟨false, false⟩, s⟩, false) := by
      match t with
      | Trigger.startupComplete => exact absurd rfl (hts _ (List.mem_cons_self _ _))
      | Trigger.stateChange entity_id st => exact step_dead_stateChange _ _ _ _ _
      | Trigger.timerFire => exact step_dead_timerFire _ _ _
      | Trigger.remove => rfl
    rw [run, hstep, ih (fun t' ht' => hts t' (List.mem_cons_of_mem _ ht'))]
    rfl

/-- C8: teardown (the remove trigger) detaches the listener and cancels
the pending timer, so that no later state change or timer firing
publishes anything or changes the instance; teardown is idempotent; and
teardown of a never-armed instance is a safe no-op. -/
theorem teardown_safe (cfg : Config) (states : String → Option HAState)
    (sys : Sys) (ts : List Trigger)
    (hts : ∀ t ∈ ts, t ≠ Trigger.startupComplete) :
    run cfg states (step cfg states sys Trigger.remove).1 ts =
      ((step cfg states sys Trigger.remove).1, false) ∧
    step cfg states (step cfg states sys Trigger.remove).1 Trigger.remove =
      ((step cfg states sys Trigger.remove).1, false) ∧
    (∀ s : SensorState,
      step cfg states ⟨⟨false, false⟩, s⟩ Trigger.remove =
        (⟨⟨false, false⟩, s⟩, false)) := by
  refine ⟨?_, rfl, fun s => rfl⟩
  exact run_dead cfg states ts hts sys.sensor

/-- C8 witness: after teardown, a state change followed by the delayed
timer and a second removal neither publishes nor mutates the instance. -/
theorem teardown_safe_witness :
    run ⟨"t", "h", 1⟩ (fun _ => none)
      (step ⟨"t", "h", 1⟩ (fun _ => none)
        ⟨⟨true, true⟩, ⟨none, none, none⟩⟩ Trigger.remove).1
      [Trigger.stateChange "t" none, Trigger.timerFire, Trigger.remove] =
      ((step ⟨"t", "h", 1⟩ (fun _ => none)
        ⟨⟨true, true⟩, ⟨none, none, none⟩⟩ Trigger.remove).1, false) :=
  (teardown_safe ⟨"t", "h", 1⟩ (fun _ => none) ⟨⟨true, true⟩, ⟨none, none, none⟩⟩
    [Trigger.stateChange "t" none, Trigger.timerFire, Trigger.remove]
    (by intro t ht
        simp only [List.mem_cons, List.not_mem_nil, or_false] at ht
        rcases ht with rfl | rfl | rfl <;> simp)).1

theorem e_pos (t rh : ℝ) (h : 0 < rh) : 0 < e t rh := by
  unfold e es
  positivity

theorem alpha_eq (t rh : ℝ) (h : 0 < rh) :
    alpha t rh = Real.log rh + (18.678 - t / 234.5) * (t / (257.14 + t)) := by
  have hA : e t rh / 0.61121 =
      rh * Real.exp ((18.678 - t / 234.5) * (t / (257.14 + t))) := by
    unfold e es
    field_simp
    ring
  rw [alpha, hA, Real.log_mul (ne_of_gt h) (Real.exp_ne_zero _), Real.log_exp]

theorem arg_le_four (t : ℝ) (h1 : -80 ≤ t) (h2 : t ≤ 60) :
    (18.678 - t / 234.5) * (t / (257.14 + t)) ≤ 4 := by
  have hD : 0 < 257.14 + t := by linarith
  rw [← mul_div_assoc, div_le_iff₀ hD]
  have hsq := sq_nonneg t
  ring_nf
  ring_nf at hsq
  nlinarith [hsq]

/-- C6: for every temperature in [-80, 60] °C and humidity fraction in
(0, 1] the calculator is defined (the real-valued result is in
particular finite) and the dew point never exceeds the dry-bulb
temperature. -/
theorem dew_point_defined_and_le_temp (t rh : ℝ) (ht1 : -80 ≤ t) (ht2 : t ≤ 60)
    (hr1 : 0 < rh) (hr2 : rh ≤ 1) :
    ∃ d, dewPointCelsius t rh = some d ∧ d ≤ t := by
  have hepos := e_pos t rh hr1
  have hlog : Real.log rh ≤ 0 := Real.log_nonpos hr1.le hr2
  have harg := arg_le_four t ht1 ht2
  have hα : alpha t rh ≤ 4 := by
    rw [alpha_eq t rh hr1]
    linarith
  have hden : denominator t rh = 18.678 - alpha t rh := rfl
  have hdenpos : 0 < denominator t rh := by rw [hden]; linarith
  have hsmall : (1e-10 : ℝ) ≤ 14.678 := by norm_num
  refine ⟨(257.14 * alpha t rh) / denominator t rh, ?_, ?_⟩
  · rw [dewPointCelsius, if_neg (not_le.mpr hepos), if_neg]
    rw [not_lt, abs_of_pos hdenpos, hden]
    linarith
  · rw [div_le_iff₀ hdenpos, hden]
    have hD : 0 < 257.14 + t := by linarith
    have key : alpha t rh * (257.14 + t) ≤ 18.678 * t := by
      have ha1 : alpha t rh * (257.14 + t) ≤
          ((18.678 - t / 234.5) * (t / (257.14 + t))) * (257.14 + t) := by
        apply mul_le_mul_of_nonneg_right _ hD.le
        rw [alpha_eq t rh hr1]
        linarith
      have ha2 : ((18.678 - t / 234.5) * (t / (257.14 + t))) * (257.14 + t) =
          (18.678 - t / 234.5) * t := by
        field_simp
        ring
      have ha3 : (18.678 - t / 234.5) * t ≤ 18.678 * t := by
        have hsq := sq_nonneg t
        ring_nf
        ring_nf at hsq
        nlinarith [hsq]
      linarith
    nlinarith [key]

/-- C6 witness: at 0 °C and full saturation the calculator is defined
and the dew point does not exceed 0 °C. -/
theorem dew_point_defined_and_le_temp_witness :
    ((-80 : ℝ) ≤ 0 ∧ (0 : ℝ) ≤ 60 ∧ (0 : ℝ) < 1 ∧ (1 : ℝ) ≤ 1) ∧
    ∃ d, dewPointCelsius 0 1 = some d ∧ d ≤ 0 :=
  ⟨by norm_num,
    dew_point_defined_and_le_temp 0 1 (by norm_num) (by norm_num) (by norm_num)
      (by norm_num)⟩

theorem log_five_thirds_bounds :
    (0.5107 : ℝ) ≤ Real.log (5 / 3) ∧ Real.log (5 / 3) ≤ 0.51095 := by
  have he1 : (2.7182818283 : ℝ) < Real.exp 1 := Real.exp_one_gt_d9
  have he2 : Real.exp 1 < 2.7182818286 := Real.exp_one_lt_d9
  have hepos : (0 : ℝ) < Real.exp 1 := Real.exp_pos 1
  set y : ℝ := 25 / (9 * Real.exp 1) with hy_def
  have hypos : 0 < y := by positivity
  have hkey : 2 * Real.log (5 / 3) = 1 + Real.log y := by
    have h1 : Real.log ((5 / 3 : ℝ) ^ (2 : ℕ)) = 2 * Real.log (5 / 3) := by
      rw [Real.log_pow]
      push_cast
      ring
    have h2 : ((5 / 3 : ℝ) ^ (2 : ℕ)) = y * Real.exp 1 := by
      rw [hy_def]
      field_simp
      ring
    rw [← h1, h2, Real.log_mul (ne_of_gt hypos) (Real.exp_ne_zero 1), Real.log_exp]
    ring
  have hub : Real.log y ≤ y - 1 := Real.log_le_sub_one_of_pos hypos
  have hlb : 1 - y⁻¹ ≤ Real.log y := Real.one_sub_inv_le_log_of_pos hypos
  have hyinv : y⁻¹ = 9 * Real.exp 1 / 25 := by
    rw [hy_def, inv_div]
  have hyub : y < 1.0219 := by
    rw [hy_def, div_lt_iff₀ (by positivity)]
    linarith
  have hyinvub : y⁻¹ < 0.9785814583 := by
    rw [hyinv]
    linarith
  constructor <;> linarith

theorem alpha_25_bounds :
    (1.1346 : ℝ) ≤ alpha 25 (6 / 10) ∧ alpha 25 (6 / 10) ≤ 1.1349 := by
  have h := alpha_eq 25 (6 / 10) (by norm_num)
  have hlog : Real.log (6 / 10 : ℝ) = -Real.log (5 / 3) := by
    rw [show (6 / 10 : ℝ) = (5 / 3)⁻¹ by norm_num, Real.log_inv]
  have hA1 : (1.6455828 : ℝ) ≤ (18.678 - 25 / 234.5) * (25 / (257.14 + 25)) := by
    norm_num
  have hA2 : (18.678 - 25 / 234.5) * (25 / (257.14 + 25)) ≤ (1.6455829 : ℝ) := by
    norm_num
  obtain ⟨hl, hu⟩ := log_five_thirds_bounds
  rw [h, hlog]
  constructor <;> linarith

theorem dew_point_25_60_bounds :
    ∃ d, dewPointCelsius 25 (6 / 10) = some d ∧ 16.55 ≤ d ∧ d < 16.65 := by
  obtain ⟨ha1, ha2⟩ := alpha_25_bounds
  have hepos : 0 < e 25 (6 / 10) := e_pos 25 (6 / 10) (by norm_num)
  have hden : denominator 25 (6 / 10) = 18.678 - alpha 25 (6 / 10) := rfl
  have hdenpos : 0 < denominator 25 (6 / 10) := by rw [hden]; linarith
  refine ⟨(257.14 * alpha 25 (6 / 10)) / denominator 25 (6 / 10), ?_, ?_, ?_⟩
  · rw [dewPointCelsius, if_neg (not_le.mpr hepos), if_neg]
    rw [not_lt, abs_of_pos hdenpos, hden]
    have hsmall : (1e-10 : ℝ) ≤ 17.5 := by norm_num
    linarith
  · rw [le_div_iff₀ hdenpos, hden]
    linarith
  · rw [div_lt_iff₀ hdenpos, hden]
    linarith

theorem derivedOutput_25_60 :
    derivedOutput 1 (some 25) (some (6 / 10)) = some (83 / 5) := by
  obtain ⟨d, hd, h1, h2⟩ := dew_point_25_60_bounds
  show (dewPointCelsius 25 (6 / 10)).map (fun x => roundTo 1 x) = some (83 / 5)
  rw [hd]
  show some (roundTo 1 d) = some (83 / 5)
  rw [roundTo_one_eq_of_bounds d 166 (by push_cast; linarith) (by push_cast; linarith)]
  norm_num

/-- C1 counterexample: at T = 25 °C, RH = 0.60 and precision 1 the code
publishes 16.6 (the Arden Buck dew point is about 16.633 °C), not the
16.7 stated by the claim. -/
theorem published_value_25_60_not_16_7 :
    derivedOutput 1 (some 25) (some (6 / 10)) = some (83 / 5) ∧
    ((83 : ℝ) / 5) ≠ 167 / 10 := by
  refine ⟨derivedOutput_25_60, by norm_num⟩

/-- C1 (amended): the calculator returns (257.14 * alpha)/(18.678 -
alpha) with alpha = ln(e/0.61121) whenever e > 0 and the denominator is
at least 1e-10 in absolute value, and returns Undefined (none) exactly
when e ≤ 0 or the denominator's absolute value is below 1e-10; at
T = 25 °C and RH = 0.60 with precision 1 the published value is 16.6. -/
theorem dew_point_formula_correct :
    (∀ t rh : ℝ, 0 < e t rh → ¬|denominator t rh| < 1e-10 →
      dewPointCelsius t rh = some ((257.14 * alpha t rh) / denominator t rh)) ∧
    (∀ t rh : ℝ, dewPointCelsius t rh = none ↔
      e t rh ≤ 0 ∨ |denominator t rh| < 1e-10) ∧
    derivedOutput 1 (some 25) (some (6 / 10)) = some (83 / 5) := by
  refine ⟨fun t rh he hd => ?_, fun t rh => ?_, derivedOutput_25_60⟩
  · rw [dewPointCelsius, if_neg (not_le.mpr he), if_neg hd]
  · rw [dewPointCelsius]
    split_ifs with h1 h2
    · simp [h1]
    · simp [h2]
    · simp [h1, h2]

/-- C1 witness: the defined branch applied at T = 0 °C and RH = 1, where
alpha evaluates to 0 and the denominator to 18.678. -/
theorem dew_point_formula_correct_witness :
    dewPointCelsius 0 1 = some ((257.14 * alpha 0 1) / denominator 0 1) := by
  have ha : alpha 0 1 = 0 := by
    rw [alpha_eq 0 1 (by norm_num)]
    simp
  refine dew_point_formula_correct.1 0 1 (e_pos 0 1 (by norm_num)) ?_
  rw [not_lt, denominator, ha]
  rw [show |(18.678 : ℝ) - 0| = 18.678 by rw [abs_of_pos] <;> norm_num]
  norm_num

end DewPoint
